import Mathlib

/-!
Shallow embedding of the List Lifecycle Manager of the todo application
(`src/src/App.tsx`) and of the API module (`src/api/todos.ts`).

The React component state hooks become the fields of `AppState`; each
intent handler becomes one or two Lean functions: a synchronous `Start`
phase (everything the handler does before its network call settles) and a
`Settle` phase (the `.then` / `.catch` / `.finally` continuations, applied
once the outcome of the network call is known).  The promise returned to the
caller is reflected as an `Outcome` value: `fulfilled` when the chain ends
successfully, `rejected` when the handler returns a rejected promise or a
`.catch` clause re-throws.

The 3-second auto-clear timer of `showErrorMessage` is modelled
separately (`NotifState`, `notifStateAt`): each raised error appends an
uncancellable fire event 3000 ms later, exactly as the `setTimeout` call in the source does.
-/

namespace TodoApp

/-- A todo item, from `src/types/Todo` as used in `App.tsx`. -/
structure Todo where
  id : Nat
  title : String
  userId : Nat
  completed : Bool
deriving DecidableEq, Repr

/-- The filter enumeration, from `src/types/Filter`. -/
inductive Filter
  | All
  | Active
  | Completed
deriving DecidableEq, Repr

/-- `USER_ID` constant from `src/api/todos.ts`. -/
def USER_ID : Nat := 2159

/-- The component state of `App`: one field per `useState` hook
(`App.tsx` lines 21-26). -/
structure AppState where
  todosFromServer : List Todo
  filter : Filter
  errorMessage : String
  isNotificationHidden : Bool
  tempTodo : Option Todo
  deletingTodoIds : List Nat
deriving DecidableEq, Repr

/-- `showErrorMessage` (`App.tsx` lines 30-38): sets the message and shows
the notification.  The `setTimeout` auto-clear it also schedules is
modelled in the timed `NotifState` semantics below. -/
def showErrorMessage (s : AppState) (message : String) : AppState :=
  { s with errorMessage := message, isNotificationHidden := false }

/-- `filterTodos` (`App.tsx` lines 40-51). -/
def filterTodos (todos : List Todo) (filterBy : Filter) : List Todo :=
  match filterBy with
  | .Completed => todos.filter (fun todo => todo.completed)
  | .Active => todos.filter (fun todo => !todo.completed)
  | .All => todos

/-- `visibleTodos` (`App.tsx` lines 53-56). -/
def visibleTodos (s : AppState) : List Todo :=
  filterTodos s.todosFromServer s.filter

/-- `activeTodosCount` (`App.tsx` lines 58-61). -/
def activeTodosCount (s : AppState) : Nat :=
  (s.todosFromServer.filter (fun todo => !todo.completed)).length

/-- `allTodosCompleted` (`App.tsx` lines 63-66). -/
def allTodosCompleted (s : AppState) : Bool :=
  activeTodosCount s == 0

/-- `hasCompletedTodos` (`App.tsx` lines 68-71). -/
def hasCompletedTodos (s : AppState) : Bool :=
  s.todosFromServer.any (fun todo => todo.completed)

/-- The request body of `createTodo` (`src/api/todos.ts`): a `Todo`
without its `id`. -/
structure CreatePayload where
  title : String
  userId : Nat
  completed : Bool
deriving DecidableEq, Repr

/-- What the synchronous part of `handleAddTodo` hands back: either the
rejected promise `Promise.reject` with reason `Title is empty` (no network call), or
the `createTodo` request it issues. -/
inductive AddStart
  | rejectEmpty (reason : String)
  | request (payload : CreatePayload)
deriving DecidableEq, Repr

/-- Embedding of JavaScript `String.prototype.trim` used by
`handleAddTodo` (`App.tsx` line 76): drops leading and trailing
whitespace characters. -/
def trim (s : String) : String :=
  ⟨((s.data.dropWhile Char.isWhitespace).reverse.dropWhile Char.isWhitespace).reverse⟩

/-- The settlement of the promise a handler returns to its caller. -/
inductive Outcome
  | fulfilled
  | rejected (reason : String)
deriving DecidableEq, Repr

/-- Synchronous part of `handleAddTodo` (`App.tsx` lines 73-92): clears
`errorMessage`, trims the title, rejects empty titles locally, otherwise
sets the optimistic `tempTodo` placeholder and issues the `createTodo`
request. -/
def handleAddTodoStart (s : AppState) (title : String) : AppState × AddStart :=
  let s := { s with errorMessage := "" }
  let trimmedTitle := trim title
  if trimmedTitle.length = 0 then
    (showErrorMessage s "Title should not be empty", .rejectEmpty "Title is empty")
  else
    ({ s with tempTodo := some ⟨0, trimmedTitle, USER_ID, false⟩ },
      .request ⟨trimmedTitle, USER_ID, false⟩)

/-- Continuations of `handleAddTodo` (`App.tsx` lines 93-102): `.then`
appends the server-returned todo, `.catch` shows the notification and
re-throws, `.finally` clears `tempTodo` in both outcomes. -/
def handleAddTodoSettle (s : AppState) (net : Except String Todo) : AppState × Outcome :=
  match net with
  | .ok newTodo =>
      ({ s with
          todosFromServer := s.todosFromServer ++ [newTodo],
          tempTodo := none },
        .fulfilled)
  | .error e =>
      ({ showErrorMessage s "Unable to add a todo" with tempTodo := none },
        .rejected e)

/-- Synchronous part of `handleDeleteTodo` (`App.tsx` lines 105-106):
`setDeletingTodoIds([todoId])`. -/
def handleDeleteTodoStart (s : AppState) (todoId : Nat) : AppState :=
  { s with deletingTodoIds := [todoId] }

/-- Continuations of `handleDeleteTodo` (`App.tsx` lines 110-122):
`.then` removes the todo with the given id, `.catch` shows the
notification and re-throws, `.finally` resets `deletingTodoIds` to `[]`
in both outcomes. -/
def handleDeleteTodoSettle (s : AppState) (todoId : Nat) (net : Except String Unit) :
    AppState × Outcome :=
  match net with
  | .ok _ =>
      ({ s with
          todosFromServer := s.todosFromServer.filter (fun todo => todo.id != todoId),
          deletingTodoIds := [] },
        .fulfilled)
  | .error e =>
      ({ showErrorMessage s "Unable to delete a todo" with deletingTodoIds := [] },
        .rejected e)

/-- Synchronous part of `handleClearCompletedTodos` (`App.tsx` lines
125-132): snapshots the ids of the completed todos, stores them in
`deletingTodoIds`, and issues one `deleteTodo` call per snapshotted id.
The returned list is the list of issued calls, in issue order. -/
def handleClearCompletedTodosStart (s : AppState) : AppState × List Nat :=
  let completedTodoIds :=
    (s.todosFromServer.filter (fun todo => todo.completed)).map (fun todo => todo.id)
  ({ s with deletingTodoIds := completedTodoIds }, completedTodoIds)

/-- Per-call continuation of `handleClearCompletedTodos` (`App.tsx` lines
133-147): on success removes the todo with that id, on failure shows the
notification; in either case the `.finally` resets the whole
`deletingTodoIds` to `[]`. -/
def clearSettleOne (s : AppState) (id : Nat) (success : Bool) : AppState :=
  let s1 :=
    if success then
      { s with todosFromServer := s.todosFromServer.filter (fun todo => todo.id != id) }
    else
      showErrorMessage s "Unable to delete a todo"
  { s1 with deletingTodoIds := [] }

/-- A run of `handleClearCompletedTodos`: the synchronous start, followed
by the settlements that have arrived so far, in arrival order.  Each
settlement is the id of the call together with its success flag. -/
def clearCompletedRun (s : AppState) (settled : List (Nat × Bool)) : AppState :=
  settled.foldl (fun st p => clearSettleOne st p.1 p.2) (handleClearCompletedTodosStart s).1

/-! ### Timed model of the notification auto-clear

`showErrorMessage` schedules `setTimeout(..., 3000)` and never cancels a
previously scheduled timeout.  We model the message/visibility state as a
fold over the time-ordered event list: each raise at time `t` contributes
a `raise` event at `t` and an uncancellable `fire` event at `t + 3000`. -/

/-- The notification-related component state. -/
structure NotifState where
  errorMessage : String
  isNotificationHidden : Bool
deriving DecidableEq, Repr

/-- An event in the timed model: an error being raised, or a scheduled
`setTimeout` callback firing. -/
inductive NEvent
  | raise (message : String)
  | fire
deriving DecidableEq, Repr

/-- Insert a timestamped event into a time-sorted event list, keeping
already-present events first among equal timestamps. -/
def insertEvent (e : Nat × NEvent) : List (Nat × NEvent) → List (Nat × NEvent)
  | [] => [e]
  | f :: rest => if e.1 < f.1 then e :: f :: rest else f :: insertEvent e rest

/-- The time-sorted schedule generated by a list of raises: each raise
`(t, message)` contributes `(t, raise message)` and `(t + 3000, fire)`
(the body of the `setTimeout` in `showErrorMessage`). -/
def scheduleOf (raises : List (Nat × String)) : List (Nat × NEvent) :=
  raises.foldl
    (fun evs p => insertEvent (p.1 + 3000, .fire) (insertEvent (p.1, .raise p.2) evs))
    []

/-- Effect of one event on the notification state: a raise is the body of
`showErrorMessage` (lines 31-32), a fire is the body of its `setTimeout`
callback (lines 35-36). -/
def applyEvent (_s : NotifState) : NEvent → NotifState
  | .raise message => { errorMessage := message, isNotificationHidden := false }
  | .fire => { errorMessage := "", isNotificationHidden := true }

/-- The notification state at time `t`, given the raises that occurred:
fold the events with timestamp `≤ t` over the initial state
(empty `errorMessage`, hidden). -/
def notifStateAt (raises : List (Nat × String)) (t : Nat) : NotifState :=
  ((scheduleOf raises).filter (fun e => e.1 ≤ t)).foldl
    (fun st e => applyEvent st e.2) ⟨"", true⟩

/-- Formalisation of the visibility the claim predicts (spec side): the
notification is visible at time `t` exactly when the most recent raise
`r ≤ t` satisfies `t < r + 3000` — i.e. each new error restarts the
3-second window. -/
def notifVisibleClaim (raises : List Nat) (t : Nat) : Bool :=
  match (raises.filter (fun r => r ≤ t)).max? with
  | none => false
  | some r => t < r + 3000

/-- Spec-side filter predicate for the refinement statement of the
derived view `visibleTodos` (spec §4.1: `Active` → `!completed`,
`Completed` → `completed`, `All` → identity). -/
def filterPredSpec : Filter → Todo → Bool
  | .Active => fun todo => !todo.completed
  | .Completed => fun todo => todo.completed
  | .All => fun _ => true

/-! ### Concrete example states -/

/-- Example state with one active todo. -/
def exAddState : AppState :=
  ⟨[⟨1, "first", USER_ID, false⟩], .All, "", true, none, []⟩

/-- Example state with one active and one completed todo, and an id
already stored in `deletingTodoIds`. -/
def exDeleteState : AppState :=
  ⟨[⟨1, "first", USER_ID, false⟩, ⟨2, "second", USER_ID, true⟩], .All, "", true, none, [5]⟩

/-- Example state with two completed todos. -/
def exClearState : AppState :=
  ⟨[⟨1, "first", USER_ID, true⟩, ⟨2, "second", USER_ID, true⟩], .All, "", true, none, []⟩

/-! ### Helper lemmas -/

/-- Filtering out an id that occurs nowhere in the list is a no-op. -/
theorem filter_ne_of_not_mem (l : List Todo) (i : Nat) (h : i ∉ l.map Todo.id) :
    l.filter (fun todo => todo.id != i) = l := by
  apply List.filter_eq_self.mpr
  intro t ht
  simp only [bne_iff_ne, ne_eq]
  intro hc
  exact h (List.mem_map.mpr ⟨t, ht, hc⟩)

/-- When the ids are distinct and `i` occurs among them, filtering out
`i` removes exactly one element. -/
theorem filter_ne_length (l : List Todo) (i : Nat) (hmem : i ∈ l.map Todo.id)
    (hnd : (l.map Todo.id).Nodup) :
    (l.filter (fun todo => todo.id != i)).length + 1 = l.length := by
  induction l with
  | nil => simp at hmem
  | cons a l ih =>
    simp only [List.map_cons, List.nodup_cons] at hnd
    by_cases hai : a.id = i
    · have : l.filter (fun todo => todo.id != i) = l :=
        filter_ne_of_not_mem l i (by rw [← hai]; exact hnd.1)
      simp [List.filter_cons, hai, this]
    · rcases List.mem_cons.mp hmem with h | h
      · exact absurd h.symm hai
      · simp only [List.filter_cons]
        have hbne : (a.id != i) = true := by simp [bne_iff_ne, hai]
        simp [hbne, List.length_cons, ih h hnd.2]

/-- Each individual settlement of a clearCompleted call ends by resetting
the whole `deletingTodoIds` to `[]` (the `.finally` on `App.tsx` line
143). -/
theorem clearSettleOne_resets (st : AppState) (i : Nat) (b : Bool) :
    (clearSettleOne st i b).deletingTodoIds = [] := rfl

/-- After any nonempty sequence of clearCompleted settlements,
`deletingTodoIds` is `[]`. -/
theorem run_foldl_resets (a : AppState) (l : List (Nat × Bool)) (h : l ≠ []) :
    (l.foldl (fun st p => clearSettleOne st p.1 p.2) a).deletingTodoIds = [] := by
  induction l generalizing a with
  | nil => exact absurd rfl h
  | cons p rest ih =>
    cases rest with
    | nil => exact clearSettleOne_resets a p.1 p.2
    | cons q rest2 => exact ih _ (by simp)

/-! ### Claim theorems -/

/-- Claim C1, counterexample: starting `clearCompleted` on a state with
two completed todos puts both ids into `deletingTodoIds`, yet the
settlement of the first (faster) delete call alone already resets
`deletingTodoIds` to `[]`, clearing id 2 although its sibling call is
still pending — contradicting the claim that ids of still-pending
sibling calls are kept until the whole batch settles. -/
theorem C1_counterexample :
    (handleClearCompletedTodosStart exClearState).1.deletingTodoIds = [1, 2] ∧
    (clearCompletedRun exClearState [(1, true)]).deletingTodoIds = [] ∧
    2 ∉ (clearCompletedRun exClearState [(1, true)]).deletingTodoIds := by decide

/-- Claim C1, amended: every individual settlement of a delete call
issued by `clearCompleted` resets the entire `deletingTodoIds` to `[]`;
in particular after any nonempty prefix of the settlements of the batch
the set is already empty, so a faster call does clear ids belonging to
still-pending sibling calls. -/
theorem C1_each_settlement_resets_deletingIds (s : AppState)
    (settled : List (Nat × Bool)) (h : settled ≠ []) :
    (clearCompletedRun s settled).deletingTodoIds = [] :=
  run_foldl_resets _ _ h

/-- Claim C1, witness: the amended theorem applied at a concrete state
and a single settled call. -/
theorem C1_witness :
    ([((1 : Nat), true)] : List (Nat × Bool)) ≠ [] ∧
    (clearCompletedRun exClearState [(1, true)]).deletingTodoIds = [] :=
  ⟨by decide, C1_each_settlement_resets_deletingIds exClearState [(1, true)] (by decide)⟩

/-- Claim C2, counterexample: when the `createTodo` call fails, the
promise `handleAddTodo` returned to the caller settles rejected (the
`.catch` re-throws), not fulfilled; likewise for `handleDeleteTodo` —
contradicting the claim that the operation returned to the caller always
settles successfully. -/
theorem C2_counterexample :
    (handleAddTodoSettle exAddState (.error "network error")).2
        = Outcome.rejected "network error" ∧
    (handleAddTodoSettle exAddState (.error "network error")).2 ≠ Outcome.fulfilled ∧
    (handleDeleteTodoSettle exAddState 1 (.error "network error")).2
        ≠ Outcome.fulfilled := by
  decide

/-- Claim C2, amended: every error is indeed caught and converted to a
user-visible notification, but the rejection is then re-raised: on
failure the promises returned by add and delete settle rejected, while
on success they settle fulfilled; the per-call failure continuation of
clearCompleted also raises the delete notification. -/
theorem C2_errors_notify_and_reject (s : AppState) (todoId : Nat)
    (newTodo : Todo) (e : String) :
    ((handleAddTodoSettle s (.error e)).1.errorMessage = "Unable to add a todo" ∧
      (handleAddTodoSettle s (.error e)).1.isNotificationHidden = false ∧
      (handleAddTodoSettle s (.error e)).2 = .rejected e) ∧
    ((handleDeleteTodoSettle s todoId (.error e)).1.errorMessage
        = "Unable to delete a todo" ∧
      (handleDeleteTodoSettle s todoId (.error e)).1.isNotificationHidden = false ∧
      (handleDeleteTodoSettle s todoId (.error e)).2 = .rejected e) ∧
    (handleAddTodoSettle s (.ok newTodo)).2 = .fulfilled ∧
    (handleDeleteTodoSettle s todoId (.ok ())).2 = .fulfilled ∧
    (clearSettleOne s todoId false).errorMessage = "Unable to delete a todo" := by
  simp [handleAddTodoSettle, handleDeleteTodoSettle, clearSettleOne, showErrorMessage]

/-- Claim C3, counterexample: with errors raised at 0 ms and 2000 ms, the
notification is already hidden at 3000 ms (the timer of the first error
fires and is never cancelled), although the claim predicts it stays
visible until 5000 ms — the window does not restart from the second
error. -/
theorem C3_counterexample :
    (notifStateAt [(0, "err1"), (2000, "err2")] 3000).isNotificationHidden = true ∧
    notifVisibleClaim [0, 2000] 3000 = true := ⟨rfl, rfl⟩

/-- Claim C3, amended: each raised error schedules its own uncancellable
3-second `setTimeout`; when a second error is raised while a notification
is showing, the timer of the first error still fires at its own deadline
and hides the notification there — strictly earlier than 3 seconds after
the most recent error. -/
theorem C3_first_timer_hides_notification_early (t1 t2 : Nat) (m1 m2 : String)
    (h1 : t1 < t2) (h2 : t2 < t1 + 3000) :
    (notifStateAt [(t1, m1), (t2, m2)] (t1 + 3000)).isNotificationHidden = true ∧
    t1 + 3000 < t2 + 3000 := by
  have hA : ¬ t1 + 3000 < t1 := by omega
  have hB : ¬ t2 < t1 := by omega
  have hD : ¬ t2 + 3000 < t1 := by omega
  have hE : ¬ t2 + 3000 < t2 := by omega
  have hF : ¬ t2 + 3000 < t1 + 3000 := by omega
  have hG : t1 ≤ t1 + 3000 := by omega
  have hH : t2 ≤ t1 + 3000 := by omega
  have hI : ¬ t2 + 3000 ≤ t1 + 3000 := by omega
  constructor
  · simp [notifStateAt, scheduleOf, insertEvent, applyEvent,
      hA, hB, h2, hD, hE, hF, hG, hH, hI]
  · omega

/-- Claim C3, witness: the amended theorem applied at raises 0 ms and
2000 ms. -/
theorem C3_witness :
    ((0 : Nat) < 2000 ∧ 2000 < 0 + 3000) ∧
    (notifStateAt [(0, "errA"), (2000, "errB")] (0 + 3000)).isNotificationHidden = true :=
  ⟨⟨by decide, by decide⟩,
    (C3_first_timer_hides_notification_early 0 2000 "errA" "errB"
      (by decide) (by decide)).1⟩

/-- Claim C4, counterexample: with 5 already in `deletingTodoIds`,
invoking delete(7) leaves `deletingTodoIds = [7]`: id 5 is no longer
present, so the set is replaced, not augmented. -/
theorem C4_counterexample :
    (handleDeleteTodoStart exDeleteState 7).deletingTodoIds = [7] ∧
    5 ∈ exDeleteState.deletingTodoIds ∧
    5 ∉ (handleDeleteTodoStart exDeleteState 7).deletingTodoIds := by decide

/-- Claim C4, amended: invoking delete(id) immediately sets
`deletingTodoIds` to exactly the singleton `[id]`, replacing whatever was
present before. -/
theorem C4_delete_replaces_deletingIds (s : AppState) (todoId : Nat) :
    (handleDeleteTodoStart s todoId).deletingTodoIds = [todoId] := rfl

/-- Claim C5: for every title whose trimmed form is non-empty, add issues
the create request for the trimmed title, shows the optimistic
placeholder, on success appends exactly the server-returned todo to the
end of `todos` (existing items unchanged and in order), on failure leaves
`todos` unchanged, and in both outcomes clears `tempTodo`. -/
theorem C5_add_appends_and_clears_tempTodo (s : AppState) (title : String)
    (newTodo : Todo) (e : String) (h : (trim title).length ≠ 0) :
    (handleAddTodoStart s title).2 = .request ⟨trim title, USER_ID, false⟩ ∧
    (handleAddTodoStart s title).1.tempTodo = some ⟨0, trim title, USER_ID, false⟩ ∧
    (handleAddTodoSettle (handleAddTodoStart s title).1 (.ok newTodo)).1.todosFromServer
        = s.todosFromServer ++ [newTodo] ∧
    (handleAddTodoSettle (handleAddTodoStart s title).1 (.ok newTodo)).1.tempTodo = none ∧
    (handleAddTodoSettle (handleAddTodoStart s title).1 (.error e)).1.todosFromServer
        = s.todosFromServer ∧
    (handleAddTodoSettle (handleAddTodoStart s title).1 (.error e)).1.tempTodo = none := by
  simp [handleAddTodoStart, handleAddTodoSettle, showErrorMessage, h]

/-- Claim C5, witness: the theorem applied at a concrete state and title,
success outcome shown: the server todo is appended at the end. -/
theorem C5_witness :
    (trim "  task ").length ≠ 0 ∧
    (handleAddTodoSettle (handleAddTodoStart exAddState "  task ").1
        (.ok ⟨7, "task", USER_ID, false⟩)).1.todosFromServer
      = exAddState.todosFromServer ++ [⟨7, "task", USER_ID, false⟩] :=
  ⟨by decide, (C5_add_appends_and_clears_tempTodo exAddState "  task "
      ⟨7, "task", USER_ID, false⟩ "network error" (by decide)).2.2.1⟩

/-- Claim C6: for every title whose trimmed form is empty, add rejects
the intent locally and synchronously with reason `Title is empty`, raises
the notification `Title should not be empty`, makes no network call (the
start phase returns `rejectEmpty`, never a request), and leaves `todos`
unchanged. -/
theorem C6_empty_title_rejected_locally (s : AppState) (title : String)
    (h : (trim title).length = 0) :
    (handleAddTodoStart s title).2 = .rejectEmpty "Title is empty" ∧
    (handleAddTodoStart s title).1.todosFromServer = s.todosFromServer ∧
    (handleAddTodoStart s title).1.errorMessage = "Title should not be empty" ∧
    (handleAddTodoStart s title).1.isNotificationHidden = false := by
  simp [handleAddTodoStart, showErrorMessage, h]

/-- Claim C6, witness: the theorem applied to a whitespace-only title. -/
theorem C6_witness :
    (trim "   ").length = 0 ∧
    (handleAddTodoStart exAddState "   ").2 = .rejectEmpty "Title is empty" :=
  ⟨by decide, (C6_empty_title_rejected_locally exAddState "   " (by decide)).1⟩

/-- Claim C7: for every id present in `todos` (ids distinct), delete on
success removes exactly the item with that id — the length drops by one,
the result is a sublist of `todos` (order kept), every other item is
retained and every remaining item has a different id; on failure `todos`
is unchanged and the notification `Unable to delete a todo` is shown; in
either outcome `deletingTodoIds` is `[]` after settlement. -/
theorem C7_delete_success_and_failure (s : AppState) (todoId : Nat) (e : String)
    (hmem : todoId ∈ s.todosFromServer.map Todo.id)
    (hnd : (s.todosFromServer.map Todo.id).Nodup) :
    ((handleDeleteTodoSettle s todoId (.ok ())).1.todosFromServer.length + 1
        = s.todosFromServer.length) ∧
    (handleDeleteTodoSettle s todoId (.ok ())).1.todosFromServer.Sublist
        s.todosFromServer ∧
    (∀ t ∈ s.todosFromServer, t.id ≠ todoId →
        t ∈ (handleDeleteTodoSettle s todoId (.ok ())).1.todosFromServer) ∧
    (∀ t ∈ (handleDeleteTodoSettle s todoId (.ok ())).1.todosFromServer,
        t ∈ s.todosFromServer ∧ t.id ≠ todoId) ∧
    (handleDeleteTodoSettle s todoId (.ok ())).1.deletingTodoIds = [] ∧
    (handleDeleteTodoSettle s todoId (.error e)).1.todosFromServer
        = s.todosFromServer ∧
    (handleDeleteTodoSettle s todoId (.error e)).1.errorMessage
        = "Unable to delete a todo" ∧
    (handleDeleteTodoSettle s todoId (.error e)).1.isNotificationHidden = false ∧
    (handleDeleteTodoSettle s todoId (.error e)).1.deletingTodoIds = [] := by
  refine ⟨filter_ne_length _ _ hmem hnd, ?_, ?_, ?_, rfl, ?_⟩
  · exact List.filter_sublist _
  · intro t ht hne
    simp [handleDeleteTodoSettle, List.mem_filter, ht, hne]
  · intro t ht
    simp only [handleDeleteTodoSettle, List.mem_filter, bne_iff_ne, ne_eq] at ht
    exact ⟨ht.1, ht.2⟩
  · simp [handleDeleteTodoSettle, showErrorMessage]

/-- Claim C7, witness: the theorem applied at a concrete two-item state,
deleting id 2. -/
theorem C7_witness :
    (2 ∈ exDeleteState.todosFromServer.map Todo.id) ∧
    (exDeleteState.todosFromServer.map Todo.id).Nodup ∧
    (handleDeleteTodoSettle exDeleteState 2 (.ok ())).1.todosFromServer.length + 1
        = exDeleteState.todosFromServer.length :=
  ⟨by decide, by decide,
    (C7_delete_success_and_failure exDeleteState 2 "network error"
      (by decide) (by decide)).1⟩

/-- Claim C8: for every state (hence after any sequence of prior intents)
`visibleTodos` equals `todos` filtered by the pure spec predicate of the
current filter (Active selects non-completed, Completed selects
completed, All keeps everything), and it is a sublist of `todos`, so the
relative order is preserved. -/
theorem C8_visibleTodos_refines_filter_spec (s : AppState) :
    visibleTodos s = s.todosFromServer.filter (filterPredSpec s.filter) ∧
    (visibleTodos s).Sublist s.todosFromServer := by
  cases hf : s.filter <;>
    simp [visibleTodos, filterTodos, filterPredSpec, hf, List.filter_sublist]

/-- Claim C9: `clearCompleted` snapshots, at invocation time, the ids of
the todos whose completed flag is true, stores exactly that list in
`deletingTodoIds`, and issues exactly one delete call per such item: the
issued list has no duplicates (given distinct ids) and contains an id iff
a completed todo with that id is in `todos`; `todos` itself is untouched
by the start phase, and the issued list is fixed before any settlement is
processed by construction of `clearCompletedRun`. -/
theorem C9_clearCompleted_snapshot_calls (s : AppState)
    (hnd : (s.todosFromServer.map Todo.id).Nodup) :
    (handleClearCompletedTodosStart s).2
        = (s.todosFromServer.filter (fun todo => todo.completed)).map Todo.id ∧
    (handleClearCompletedTodosStart s).2.Nodup ∧
    (∀ i, i ∈ (handleClearCompletedTodosStart s).2 ↔
        ∃ t ∈ s.todosFromServer, t.id = i ∧ t.completed = true) ∧
    (handleClearCompletedTodosStart s).1.deletingTodoIds
        = (handleClearCompletedTodosStart s).2 ∧
    (handleClearCompletedTodosStart s).1.todosFromServer = s.todosFromServer := by
  refine ⟨rfl, ?_, ?_, rfl, rfl⟩
  · exact hnd.sublist ((List.filter_sublist _).map Todo.id)
  · intro i
    simp only [handleClearCompletedTodosStart, List.mem_map, List.mem_filter]
    constructor
    · rintro ⟨t, ⟨ht, hc⟩, hid⟩
      exact ⟨t, ht, hid, hc⟩
    · rintro ⟨t, ht, hid, hc⟩
      exact ⟨t, ⟨ht, hc⟩, hid⟩

/-- Claim C9, witness: the theorem applied at a concrete state with two
completed todos. -/
theorem C9_witness :
    (exClearState.todosFromServer.map Todo.id).Nodup ∧
    (handleClearCompletedTodosStart exClearState).2.Nodup :=
  ⟨by decide, (C9_clearCompleted_snapshot_calls exClearState (by decide)).2.1⟩

/-- Claim C10: for every id not present in `todos`, a successful delete
leaves `todos` exactly unchanged, raises no notification (message and
visibility untouched), and the returned promise settles fulfilled. -/
theorem C10_delete_absent_id_noop (s : AppState) (todoId : Nat)
    (h : todoId ∉ s.todosFromServer.map Todo.id) :
    (handleDeleteTodoSettle s todoId (.ok ())).1.todosFromServer = s.todosFromServer ∧
    (handleDeleteTodoSettle s todoId (.ok ())).1.errorMessage = s.errorMessage ∧
    (handleDeleteTodoSettle s todoId (.ok ())).1.isNotificationHidden
        = s.isNotificationHidden ∧
    (handleDeleteTodoSettle s todoId (.ok ())).2 = .fulfilled := by
  simp [handleDeleteTodoSettle, filter_ne_of_not_mem _ _ h]

/-- Claim C10, witness: the theorem applied at a concrete state and the
absent id 99. -/
theorem C10_witness :
    (99 ∉ exAddState.todosFromServer.map Todo.id) ∧
    (handleDeleteTodoSettle exAddState 99 (.ok ())).1.todosFromServer
        = exAddState.todosFromServer :=
  ⟨by decide, (C10_delete_absent_id_noop exAddState 99 (by decide)).1⟩

end TodoApp
